import Mathlib

/-
Verification of the salary-sacrifice cap reform engine
(`src/salary_sacrifice/reforms.py` and `src/salary_sacrifice/analysis.py`)
against its natural-language specification.

Modelling conventions:
- numpy float vectors of length `n` become functions `Fin n → ℚ`; exact
  rational arithmetic stands in for IEEE doubles (an exact equality is
  stronger than any floating-point-tolerance statement).
- The Python `Enum` members are identity-compared in the source; at runtime
  the dataclass fields can hold arbitrary values, and the source's trailing
  `else: raise ValueError` branches exist precisely for that case.  We model
  the response fields by their underlying `.value` strings, so that the
  "unknown variant" branches are reachable, as they are in Python.
- `raise ValueError` becomes `Except.error`; the transform returns the three
  reformed vectors only on success, mirroring that `set_input` is reached
  only when no exception was raised.
- Unguarded numpy division (which yields ±inf or nan on a zero denominator,
  never 0) is modelled by `NPFloat` with IEEE-style zero-denominator cases.
-/

namespace SalarySacrifice

/-- The `.value` string of `EmployerResponse.SPREAD_COST`. -/
def SPREAD_COST : String := "spread_cost"

/-- The `.value` string of `EmployerResponse.ABSORB_COST`. -/
def ABSORB_COST : String := "absorb_cost"

/-- The `.value` string of `EmployerResponse.TARGETED_HAIRCUT`. -/
def TARGETED_HAIRCUT : String := "targeted_haircut"

/-- The `.value` string of `EmployeeResponse.MAINTAIN_PENSION`. -/
def MAINTAIN_PENSION : String := "maintain_pension"

/-- The `.value` string of `EmployeeResponse.TAKE_CASH`. -/
def TAKE_CASH : String := "take_cash"

/-- The `.value` string of `EmployeeResponse.PARTIAL_REDIRECT`. -/
def PARTIAL_REDIRECT : String := "partial_redirect"

/-- Embedding of the `SalarySacrificeCapScenario` dataclass, with the same
field names and default values as the source. -/
structure SalarySacrificeCapScenario where
  cap_amount : ℚ := 2000
  employer_ni_rate : ℚ := 138 / 1000
  employer_response : String := SPREAD_COST
  employee_response : String := MAINTAIN_PENSION
  pension_redirect_rate : ℚ := 1
  targeted_haircut_rate : ℚ := 13 / 100
  deriving DecidableEq

/-- Python `int()` applied to a rational: truncation toward zero. -/
def pyInt (q : ℚ) : ℤ := q.num / (q.den : ℤ)

/-- Embedding of the derived `name` property of the scenario dataclass:
`parts = [f"cap_{cap_amount}", employer_response.value, employee_response.value]`,
plus a `redirect_{int(rate*100)}pct` part under PARTIAL_REDIRECT, joined
with underscores. -/
def scenarioName (sc : SalarySacrificeCapScenario) : String :=
  let parts := ["cap_" ++ toString sc.cap_amount, sc.employer_response, sc.employee_response]
  let parts :=
    if sc.employee_response = PARTIAL_REDIRECT then
      parts ++ ["redirect_" ++ toString (pyInt (sc.pension_redirect_rate * 100)) ++ "pct"]
    else parts
  String.intercalate "_" parts

/-- The per-person baseline vectors read from the engine at the start of
`_apply_reform_for_year`: salary-sacrifice contributions, employment income
and employee pension contributions. -/
structure PopulationFrame (n : ℕ) where
  ss_contrib : Fin n → ℚ
  emp_income : Fin n → ℚ
  employee_pension : Fin n → ℚ

/-- The three reformed vectors written back by `sim.set_input` at the end of
`_apply_reform_for_year`. -/
structure ReformedFrame (n : ℕ) where
  new_employment_income : Fin n → ℚ
  new_employee_pension : Fin n → ℚ
  new_ss_contrib : Fin n → ℚ

/-- Embedding of `_apply_reform_for_year` (reforms.py lines 164-234): the
pure transformation from the baseline frame to the reformed frame.  The
trailing `else: raise ValueError` branches of both dispatches become
`Except.error`; `set_input` is modelled by returning the reformed frame,
which exists only when no error was raised. -/
def applyReformForYear {n : ℕ} (sc : SalarySacrificeCapScenario) (f : PopulationFrame n) :
    Except String (ReformedFrame n) :=
  let excess : Fin n → ℚ := fun i => max (f.ss_contrib i - sc.cap_amount) 0
  let pr0 : Except String (Fin n → ℚ) :=
    if sc.employee_response = MAINTAIN_PENSION then Except.ok excess
    else if sc.employee_response = TAKE_CASH then Except.ok (fun _ => 0)
    else if sc.employee_response = PARTIAL_REDIRECT then
      Except.ok (fun i => excess i * sc.pension_redirect_rate)
    else Except.error ("Unknown employee response: " ++ sc.employee_response)
  match pr0 with
  | Except.error e => Except.error e
  | Except.ok pension_redirect =>
    let cash_portion : Fin n → ℚ := excess
    if sc.employer_response = SPREAD_COST then
      let total_employer_ni_increase : ℚ := ∑ i, excess i * sc.employer_ni_rate
      let total_employment_income : ℚ := ∑ i, f.emp_income i
      let broad_haircut_rate : ℚ :=
        if total_employment_income > 0 then
          total_employer_ni_increase / total_employment_income
        else 0
      Except.ok
        { new_employment_income := fun i =>
            f.emp_income i * (1 - broad_haircut_rate) + cash_portion i
          new_employee_pension := fun i => f.employee_pension i + pension_redirect i
          new_ss_contrib := fun i => min (f.ss_contrib i) sc.cap_amount }
    else if sc.employer_response = ABSORB_COST then
      Except.ok
        { new_employment_income := fun i => f.emp_income i + cash_portion i
          new_employee_pension := fun i => f.employee_pension i + pension_redirect i
          new_ss_contrib := fun i => min (f.ss_contrib i) sc.cap_amount }
    else if sc.employer_response = TARGETED_HAIRCUT then
      let haircut : Fin n → ℚ := fun i => excess i * sc.targeted_haircut_rate
      let cash_portion2 : Fin n → ℚ := fun i => excess i - haircut i
      let pension_redirect2 : Fin n → ℚ := cash_portion2
      Except.ok
        { new_employment_income := fun i => f.emp_income i + cash_portion2 i
          new_employee_pension := fun i => f.employee_pension i + pension_redirect2 i
          new_ss_contrib := fun i => min (f.ss_contrib i) sc.cap_amount }
    else Except.error ("Unknown employer response: " ++ sc.employer_response)

/-- Projection used to state concrete counterexamples: the reformed employee
pension of person `i`, when the transform succeeded. -/
def reformPensionAt {n : ℕ} (r : Except String (ReformedFrame n)) (i : Fin n) : Option ℚ :=
  match r with
  | Except.ok rf => some (rf.new_employee_pension i)
  | Except.error _ => none

/-- IEEE-style value of a numpy float expression: finite rational, ±infinity
or NaN.  Needed because numpy division by a zero denominator yields ±inf or
nan (with a runtime warning), never 0. -/
inductive NPFloat where
  | fin (q : ℚ)
  | posInf
  | negInf
  | nan
  deriving DecidableEq

/-- Numpy float division `a / b`, including the zero-denominator cases. -/
def npdiv (a b : ℚ) : NPFloat :=
  if b ≠ 0 then NPFloat.fin (a / b)
  else if a > 0 then NPFloat.posInf
  else if a < 0 then NPFloat.negInf
  else NPFloat.nan

/-- The dictionary returned by `calculate_affected_population`.  Fields whose
source expression is an unguarded division are `NPFloat`; the guarded ones
are wrapped as finite values. -/
structure AffectedPopulationStats where
  total_workers : ℚ
  ss_contributors : ℚ
  ss_contributors_pct : NPFloat
  affected_workers : ℚ
  affected_workers_pct_of_ss : NPFloat
  affected_workers_pct_of_all : NPFloat
  avg_contribution_all_ss : NPFloat
  avg_contribution_above_cap : NPFloat
  total_excess_bn : ℚ
  deriving DecidableEq

/-- Embedding of `calculate_affected_population` (reforms.py lines 237-294).
Boolean-mask sums such as `weights[has_ss].sum()` become sums of
`if mask i then weights i else 0`.  The three conditional expressions of
the source keep their `if denominator > 0 then quotient else 0` shape; the
two unconditional divisions by `total_workers` use numpy division. -/
def calculate_affected_population {n : ℕ} (ss_contrib weights emp_income : Fin n → ℚ)
    (cap_amount : ℚ) : AffectedPopulationStats :=
  let ss_contributors : ℚ := ∑ i, if ss_contrib i > 0 then weights i else 0
  let affected_workers : ℚ := ∑ i, if ss_contrib i > cap_amount then weights i else 0
  let excess : Fin n → ℚ := fun i => max (ss_contrib i - cap_amount) 0
  let total_excess : ℚ := ∑ i, excess i * weights i
  let avg_ss_all : ℚ :=
    if ss_contributors > 0 then
      (∑ i, if ss_contrib i > 0 then ss_contrib i * weights i else 0) / ss_contributors
    else 0
  let avg_ss_above_cap : ℚ :=
    if affected_workers > 0 then
      (∑ i, if ss_contrib i > cap_amount then ss_contrib i * weights i else 0) / affected_workers
    else 0
  let total_workers : ℚ := ∑ i, if emp_income i > 0 then weights i else 0
  { total_workers := total_workers
    ss_contributors := ss_contributors
    ss_contributors_pct := npdiv (100 * ss_contributors) total_workers
    affected_workers := affected_workers
    affected_workers_pct_of_ss :=
      if ss_contributors > 0 then NPFloat.fin (100 * affected_workers / ss_contributors)
      else NPFloat.fin 0
    affected_workers_pct_of_all := npdiv (100 * affected_workers) total_workers
    avg_contribution_all_ss := NPFloat.fin avg_ss_all
    avg_contribution_above_cap := NPFloat.fin avg_ss_above_cap
    total_excess_bn := total_excess / 1000000000 }

/-- One row of the DataFrame built by `calculate_distributional_impact`. -/
structure DecileRow where
  decile : ℕ
  avg_baseline_income : ℚ
  avg_reformed_income : ℚ
  avg_change : ℚ
  pct_change : ℚ
  population : ℚ
  deriving DecidableEq

/-- Embedding of the aggregation loop of `calculate_distributional_impact`
(analysis.py lines 172-200): for each decile 1..10, the masked sums of the
baseline/reformed income series and of the weight series; a decile whose
total weight is 0 is skipped (`continue`), otherwise a row is appended, with
`pct_change = 0` when the average baseline income is 0. -/
def calculate_distributional_impact_rows {n : ℕ}
    (baseline_income reformed_income : Fin n → ℚ)
    (deciles : Fin n → ℕ) (weights : Fin n → ℚ) : List DecileRow :=
  (List.range' 1 10).filterMap (fun decile =>
    let baseline_sum : ℚ := ∑ i, if deciles i = decile then baseline_income i else 0
    let reformed_sum : ℚ := ∑ i, if deciles i = decile then reformed_income i else 0
    let total_weight : ℚ := ∑ i, if deciles i = decile then weights i else 0
    if total_weight = 0 then none
    else
      let avg_baseline := baseline_sum / total_weight
      let avg_reformed := reformed_sum / total_weight
      let avg_change := avg_reformed - avg_baseline
      let pct_change := if avg_baseline ≠ 0 then 100 * avg_change / avg_baseline else 0
      some { decile := decile
             avg_baseline_income := avg_baseline
             avg_reformed_income := avg_reformed
             avg_change := avg_change
             pct_change := pct_change
             population := total_weight })

/-- Embedding of `get_scenario_matrix` (reforms.py lines 297-326): the three
nested `for` loops appending one scenario per (cap, employer, employee)
triple, all other fields left at their defaults. -/
def get_scenario_matrix (cap_amounts : List ℚ) : List SalarySacrificeCapScenario :=
  cap_amounts.foldl (fun scenarios cap =>
    [SPREAD_COST, ABSORB_COST].foldl (fun scenarios2 employer =>
      [MAINTAIN_PENSION, TAKE_CASH].foldl (fun scenarios3 employee =>
        scenarios3 ++
          [{ cap_amount := cap, employer_response := employer,
             employee_response := employee }]) scenarios2) scenarios) []

/-- Modelled from the spec: the scenario matrix as the spec describes it —
"the Cartesian product of `{SpreadCost, AbsorbCost} × {MaintainPension,
TakeCash}` for each requested cap amount", with "cap outer loop, employer
middle, employee inner".  Used only as the comparison point for the
refinement claim about `get_scenario_matrix`. -/
def scenarioMatrixSpec (cap_amounts : List ℚ) : List SalarySacrificeCapScenario :=
  cap_amounts.flatMap (fun cap =>
    [SPREAD_COST, ABSORB_COST].flatMap (fun employer =>
      [MAINTAIN_PENSION, TAKE_CASH].map (fun employee =>
        { cap_amount := cap, employer_response := employer,
          employee_response := employee })))

/-- Claim C1: for every baseline frame with non-negative vectors, every
`cap_amount ≥ 0`, MaintainPension with SpreadCost or AbsorbCost, the
transform preserves the total pension contribution of every person:
`new_salary_sacrifice + new_employee_pension = old_salary_sacrifice +
old_employee_pension`, exactly. -/
theorem c1_maintain_pension_conservation {n : ℕ} (sc : SalarySacrificeCapScenario)
    (f : PopulationFrame n)
    (hss : ∀ i, 0 ≤ f.ss_contrib i) (hinc : ∀ i, 0 ≤ f.emp_income i)
    (hep : ∀ i, 0 ≤ f.employee_pension i) (hcap : 0 ≤ sc.cap_amount)
    (hee : sc.employee_response = MAINTAIN_PENSION)
    (her : sc.employer_response = SPREAD_COST ∨ sc.employer_response = ABSORB_COST) :
    ∃ rf, applyReformForYear sc f = Except.ok rf ∧
      ∀ i, rf.new_ss_contrib i + rf.new_employee_pension i =
        f.ss_contrib i + f.employee_pension i := by
  have key : ∀ i, min (f.ss_contrib i) sc.cap_amount + (f.employee_pension i +
      max (f.ss_contrib i - sc.cap_amount) 0) = f.ss_contrib i + f.employee_pension i := by
    intro i
    rcases le_total (f.ss_contrib i) sc.cap_amount with hle | hle
    · rw [min_eq_left hle, max_eq_right (sub_nonpos.mpr hle)]
      ring
    · rw [min_eq_right hle, max_eq_left (sub_nonneg.mpr hle)]
      ring
  rcases her with h | h <;>
    simp +decide [applyReformForYear, hee, h, MAINTAIN_PENSION, SPREAD_COST, ABSORB_COST] <;>
    exact key

/-- Claim C1 witness: the conservation theorem specialized to the concrete
two-person frame of the spec's worked SpreadCost example. -/
theorem c1_maintain_pension_conservation_witness :
    ∃ rf, applyReformForYear
        { cap_amount := 2000, employer_response := SPREAD_COST,
          employee_response := MAINTAIN_PENSION }
        ({ ss_contrib := ![5000, 1000], emp_income := ![50000, 50000],
           employee_pension := ![0, 0] } : PopulationFrame 2) = Except.ok rf ∧
      ∀ i, rf.new_ss_contrib i + rf.new_employee_pension i =
        (![5000, 1000] : Fin 2 → ℚ) i + (![0, 0] : Fin 2 → ℚ) i :=
  c1_maintain_pension_conservation _ _ (by norm_num [Fin.forall_fin_two])
    (by norm_num [Fin.forall_fin_two]) (by norm_num [Fin.forall_fin_two]) (by norm_num)
    rfl (Or.inl rfl)

/-- Claim C2 counterexample: with one person who has a positive
salary-sacrifice contribution but zero employment income (so the weighted
`total_workers` denominator is 0), `ss_contributors_pct` is `+inf`, not 0 —
the division by `total_workers` is not guarded in the source. -/
theorem c2_zero_denominator_counterexample :
    (@calculate_affected_population 1 ![5000] ![1] ![0] 2000).total_workers = 0 ∧
    (@calculate_affected_population 1 ![5000] ![1] ![0] 2000).ss_contributors_pct =
      NPFloat.posInf ∧
    NPFloat.posInf ≠ NPFloat.fin 0 := by
  refine ⟨?_, ?_, by simp⟩ <;> norm_num [calculate_affected_population, npdiv]

/-- Claim C2 amended: only the `ss_contributors` and `affected_workers`
denominators are guarded — when `ss_contributors = 0` the fields
`avg_contribution_all_ss` and `affected_workers_pct_of_ss` are 0, and when
`affected_workers = 0` the field `avg_contribution_above_cap` is 0; but when
`total_workers = 0` the unguarded divisions leave `ss_contributors_pct` and
`affected_workers_pct_of_all` non-finite (NaN or ±inf), never 0. -/
theorem c2_zero_denominator_guards {n : ℕ} (ss w emp : Fin n → ℚ) (cap : ℚ)
    (hw : ∀ i, 0 ≤ w i) :
    ((calculate_affected_population ss w emp cap).ss_contributors = 0 →
      (calculate_affected_population ss w emp cap).avg_contribution_all_ss = NPFloat.fin 0 ∧
      (calculate_affected_population ss w emp cap).affected_workers_pct_of_ss =
        NPFloat.fin 0) ∧
    ((calculate_affected_population ss w emp cap).affected_workers = 0 →
      (calculate_affected_population ss w emp cap).avg_contribution_above_cap =
        NPFloat.fin 0) ∧
    ((calculate_affected_population ss w emp cap).total_workers = 0 →
      ∀ q : ℚ, (calculate_affected_population ss w emp cap).ss_contributors_pct ≠
          NPFloat.fin q ∧
        (calculate_affected_population ss w emp cap).affected_workers_pct_of_all ≠
          NPFloat.fin q) := by
  refine ⟨?_, ?_, ?_⟩
  · intro h
    simp only [calculate_affected_population] at h ⊢
    simp [h]
  · intro h
    simp only [calculate_affected_population] at h ⊢
    simp [h]
  · intro h q
    simp only [calculate_affected_population] at h ⊢
    rw [h]
    constructor <;> · simp only [npdiv] <;> split_ifs <;> simp_all

/-- Claim C2 witness: the guard theorem at a one-person frame with no
salary sacrifice at all, where both guarded denominators are 0. -/
theorem c2_zero_denominator_guards_witness :
    ((@calculate_affected_population 1 ![0] ![1] ![50000] 2000).ss_contributors = 0 →
      (@calculate_affected_population 1 ![0] ![1] ![50000] 2000).avg_contribution_all_ss =
        NPFloat.fin 0 ∧
      (@calculate_affected_population 1 ![0] ![1] ![50000] 2000).affected_workers_pct_of_ss =
        NPFloat.fin 0) ∧
    ((@calculate_affected_population 1 ![0] ![1] ![50000] 2000).affected_workers = 0 →
      (@calculate_affected_population 1 ![0] ![1] ![50000] 2000).avg_contribution_above_cap =
        NPFloat.fin 0) ∧
    ((@calculate_affected_population 1 ![0] ![1] ![50000] 2000).total_workers = 0 →
      ∀ q : ℚ, (@calculate_affected_population 1 ![0] ![1] ![50000] 2000).ss_contributors_pct ≠
          NPFloat.fin q ∧
        (@calculate_affected_population 1 ![0] ![1] ![50000] 2000).affected_workers_pct_of_all ≠
          NPFloat.fin q) :=
  c2_zero_denominator_guards ![0] ![1] ![50000] 2000 (by norm_num [Fin.forall_fin_one])

/-- Claim C3 counterexample: under TakeCash with employer response
TargetedHaircut (a member of the closed employer-response set), the pension
vector is not left unchanged: with contribution 5000, cap 2000 and haircut
rate 0.13, baseline employee pension 0 becomes 2610 — the TargetedHaircut
branch overrides the TakeCash redirect of zero. -/
theorem c3_take_cash_counterexample :
    reformPensionAt
        (applyReformForYear
          { cap_amount := 2000, employer_response := TARGETED_HAIRCUT,
            employee_response := TAKE_CASH }
          { ss_contrib := ![5000], emp_income := ![50000], employee_pension := ![0] })
        0 = some 2610 ∧ (2610 : ℚ) ≠ 0 := by
  constructor
  · norm_num +decide [reformPensionAt, applyReformForYear, TARGETED_HAIRCUT, TAKE_CASH,
      MAINTAIN_PENSION, SPREAD_COST, ABSORB_COST]
  · norm_num

/-- Claim C3 amended: under TakeCash with employer response SpreadCost or
AbsorbCost (TargetedHaircut excluded, since it overrides the redirect), the
transform leaves the employee pension vector unchanged. -/
theorem c3_take_cash_pension_unchanged {n : ℕ} (sc : SalarySacrificeCapScenario)
    (f : PopulationFrame n) (hcap : 0 ≤ sc.cap_amount)
    (hee : sc.employee_response = TAKE_CASH)
    (her : sc.employer_response = SPREAD_COST ∨ sc.employer_response = ABSORB_COST) :
    ∃ rf, applyReformForYear sc f = Except.ok rf ∧
      ∀ i, rf.new_employee_pension i = f.employee_pension i := by
  rcases her with h | h <;>
    simp +decide [applyReformForYear, hee, h, MAINTAIN_PENSION, TAKE_CASH, SPREAD_COST,
      ABSORB_COST]

/-- Claim C3 witness: the amended theorem at a concrete SpreadCost/TakeCash
scenario with a person above the cap. -/
theorem c3_take_cash_pension_unchanged_witness :
    ∃ rf, applyReformForYear
        { cap_amount := 2000, employer_response := SPREAD_COST,
          employee_response := TAKE_CASH }
        ({ ss_contrib := ![5000], emp_income := ![50000],
           employee_pension := ![100] } : PopulationFrame 1) = Except.ok rf ∧
      ∀ i, rf.new_employee_pension i = (![100] : Fin 1 → ℚ) i :=
  c3_take_cash_pension_unchanged _ _ (by norm_num) rfl (Or.inl rfl)

/-- Claim C4: under SpreadCost (with any recognized employee response, so
that the transform succeeds) on a frame with non-negative employment
income, the transform computes the single scalar
`broad_haircut_rate = Σ(excess·employer_ni_rate) / Σ(employment_income)`
(0 when total employment income is 0) and sets
`new_employment_income[i] = employment_income[i]·(1 − rate) + excess[i]`
uniformly for every person, including persons with zero excess. -/
theorem c4_spread_cost_income {n : ℕ} (sc : SalarySacrificeCapScenario)
    (f : PopulationFrame n) (r : ℚ)
    (hinc : ∀ i, 0 ≤ f.emp_income i)
    (her : sc.employer_response = SPREAD_COST)
    (hee : sc.employee_response = MAINTAIN_PENSION ∨ sc.employee_response = TAKE_CASH ∨
      sc.employee_response = PARTIAL_REDIRECT)
    (hr : r = if (∑ j, f.emp_income j) = 0 then 0
      else (∑ j, max (f.ss_contrib j - sc.cap_amount) 0 * sc.employer_ni_rate) /
        (∑ j, f.emp_income j)) :
    ∃ rf, applyReformForYear sc f = Except.ok rf ∧
      ∀ i, rf.new_employment_income i =
        f.emp_income i * (1 - r) + max (f.ss_contrib i - sc.cap_amount) 0 := by
  have hT : (0 : ℚ) ≤ ∑ j, f.emp_income j := Finset.sum_nonneg fun j _ => hinc j
  have hiff : (if (∑ j, f.emp_income j) > 0 then
      (∑ j, max (f.ss_contrib j - sc.cap_amount) 0 * sc.employer_ni_rate) /
        (∑ j, f.emp_income j) else 0) = r := by
    by_cases h0 : (∑ j, f.emp_income j) = 0
    · simp [hr, h0]
    · have hpos : (0 : ℚ) < ∑ j, f.emp_income j := lt_of_le_of_ne hT (Ne.symm h0)
      simp [hr, h0, hpos]
  rcases hee with h | h | h <;>
    simp +decide [applyReformForYear, her, h, MAINTAIN_PENSION, TAKE_CASH, PARTIAL_REDIRECT,
      SPREAD_COST] <;>
    simp [hiff]

/-- Claim C4 witness: the SpreadCost income theorem at the spec's worked
example — contributions `[5000, 1000]`, incomes `[50000, 50000]`, cap 2000,
rate `3000·0.138/100000 = 207/50000`. -/
theorem c4_spread_cost_income_witness :
    ∃ rf, applyReformForYear
        { cap_amount := 2000, employer_response := SPREAD_COST,
          employee_response := MAINTAIN_PENSION }
        ({ ss_contrib := ![5000, 1000], emp_income := ![50000, 50000],
           employee_pension := ![0, 0] } : PopulationFrame 2) = Except.ok rf ∧
      ∀ i, rf.new_employment_income i =
        (![50000, 50000] : Fin 2 → ℚ) i * (1 - 207 / 50000) +
          max ((![5000, 1000] : Fin 2 → ℚ) i - 2000) 0 :=
  c4_spread_cost_income _ _ (207 / 50000) (by norm_num [Fin.forall_fin_two]) rfl (Or.inl rfl)
    (by norm_num [Fin.sum_univ_two])

/-- Claim C5: under TargetedHaircut with rate `r` (and any recognized
employee response, all of which it overrides), every person's employee
pension increases by exactly `excess[i]·(1 − r)` and employment income by
the same amount. -/
theorem c5_targeted_haircut {n : ℕ} (sc : SalarySacrificeCapScenario)
    (f : PopulationFrame n)
    (her : sc.employer_response = TARGETED_HAIRCUT)
    (hee : sc.employee_response = MAINTAIN_PENSION ∨ sc.employee_response = TAKE_CASH ∨
      sc.employee_response = PARTIAL_REDIRECT) :
    ∃ rf, applyReformForYear sc f = Except.ok rf ∧
      ∀ i, rf.new_employee_pension i - f.employee_pension i =
          max (f.ss_contrib i - sc.cap_amount) 0 * (1 - sc.targeted_haircut_rate) ∧
        rf.new_employment_income i =
          f.emp_income i + max (f.ss_contrib i - sc.cap_amount) 0 *
            (1 - sc.targeted_haircut_rate) := by
  rcases hee with h | h | h <;>
    simp +decide [applyReformForYear, her, h, MAINTAIN_PENSION, TAKE_CASH, PARTIAL_REDIRECT,
      SPREAD_COST, ABSORB_COST, TARGETED_HAIRCUT] <;>
    intro i <;>
    ring

/-- Claim C5 witness: the spec's worked TargetedHaircut example —
contribution 5000, income 50000, cap 2000, rate 0.13: pension rises by
2610 and income becomes 52610. -/
theorem c5_targeted_haircut_witness :
    ∃ rf, applyReformForYear
        { cap_amount := 2000, employer_response := TARGETED_HAIRCUT,
          employee_response := MAINTAIN_PENSION, targeted_haircut_rate := 13 / 100 }
        ({ ss_contrib := ![5000], emp_income := ![50000],
           employee_pension := ![0] } : PopulationFrame 1) = Except.ok rf ∧
      ∀ i, rf.new_employee_pension i - (![0] : Fin 1 → ℚ) i =
          max ((![5000] : Fin 1 → ℚ) i - 2000) 0 * (1 - 13 / 100) ∧
        rf.new_employment_income i =
          (![50000] : Fin 1 → ℚ) i + max ((![5000] : Fin 1 → ℚ) i - 2000) 0 *
            (1 - 13 / 100) :=
  c5_targeted_haircut _ _ rfl (Or.inl rfl)

/-- Claim C6: for every recognized configuration and every `cap_amount ≥ 0`,
the transform caps salary sacrifice at the limit:
`new_salary_sacrifice[i] = min(salary_sacrifice[i], cap_amount)`, hence
`new_salary_sacrifice[i] ≤ cap_amount`. -/
theorem c6_cap_salary_sacrifice {n : ℕ} (sc : SalarySacrificeCapScenario)
    (f : PopulationFrame n) (hcap : 0 ≤ sc.cap_amount)
    (hee : sc.employee_response = MAINTAIN_PENSION ∨ sc.employee_response = TAKE_CASH ∨
      sc.employee_response = PARTIAL_REDIRECT)
    (her : sc.employer_response = SPREAD_COST ∨ sc.employer_response = ABSORB_COST ∨
      sc.employer_response = TARGETED_HAIRCUT) :
    ∃ rf, applyReformForYear sc f = Except.ok rf ∧
      ∀ i, rf.new_ss_contrib i = min (f.ss_contrib i) sc.cap_amount ∧
        rf.new_ss_contrib i ≤ sc.cap_amount := by
  rcases hee with h | h | h <;> rcases her with h2 | h2 | h2 <;>
    simp +decide [applyReformForYear, h, h2, MAINTAIN_PENSION, TAKE_CASH, PARTIAL_REDIRECT,
      SPREAD_COST, ABSORB_COST, TARGETED_HAIRCUT]

/-- Claim C6 witness: the cap theorem at an AbsorbCost/TakeCash scenario
with one person above the cap. -/
theorem c6_cap_salary_sacrifice_witness :
    ∃ rf, applyReformForYear
        { cap_amount := 2000, employer_response := ABSORB_COST,
          employee_response := TAKE_CASH }
        ({ ss_contrib := ![5000], emp_income := ![50000],
           employee_pension := ![0] } : PopulationFrame 1) = Except.ok rf ∧
      ∀ i, rf.new_ss_contrib i = min ((![5000] : Fin 1 → ℚ) i) 2000 ∧
        rf.new_ss_contrib i ≤ 2000 :=
  c6_cap_salary_sacrifice _ _ (by norm_num) (Or.inr (Or.inl rfl)) (Or.inr (Or.inl rfl))

/-- Claim C7: if the employee response is not one of the three recognized
variants or the employer response is not one of its three recognized
variants, the transform fails with an error and produces no reformed frame
(so nothing is written back to the engine). -/
theorem c7_unknown_variant_errors {n : ℕ} (sc : SalarySacrificeCapScenario)
    (f : PopulationFrame n)
    (h : ¬ (sc.employee_response = MAINTAIN_PENSION ∨ sc.employee_response = TAKE_CASH ∨
        sc.employee_response = PARTIAL_REDIRECT) ∨
      ¬ (sc.employer_response = SPREAD_COST ∨ sc.employer_response = ABSORB_COST ∨
        sc.employer_response = TARGETED_HAIRCUT)) :
    ∃ msg, applyReformForYear sc f = Except.error msg := by
  rcases h with h | h
  · push_neg at h
    obtain ⟨h1, h2, h3⟩ := h
    simp [applyReformForYear, h1, h2, h3]
  · push_neg at h
    obtain ⟨g1, g2, g3⟩ := h
    by_cases e1 : sc.employee_response = MAINTAIN_PENSION
    · simp [applyReformForYear, e1, g1, g2, g3]
    · by_cases e2 : sc.employee_response = TAKE_CASH
      · simp +decide [applyReformForYear, e1, e2, g1, g2, g3, MAINTAIN_PENSION, TAKE_CASH]
      · by_cases e3 : sc.employee_response = PARTIAL_REDIRECT
        · simp +decide [applyReformForYear, e1, e2, e3, g1, g2, g3, MAINTAIN_PENSION,
            TAKE_CASH, PARTIAL_REDIRECT]
        · simp [applyReformForYear, e1, e2, e3]

/-- Claim C7 witness: a scenario holding the unrecognized employee-response
value `"cash"` makes the transform fail with an error. -/
theorem c7_unknown_variant_errors_witness :
    ∃ msg, applyReformForYear
        { cap_amount := 2000, employer_response := SPREAD_COST,
          employee_response := "cash" }
        ({ ss_contrib := ![5000], emp_income := ![50000],
           employee_pension := ![0] } : PopulationFrame 1) = Except.error msg :=
  c7_unknown_variant_errors _ _ (Or.inl (by decide))

/-- Claim C8: in the decile aggregator, a decile `d ∈ 1..10` whose total
weight is 0 is omitted entirely from the output rows, and any emitted row
whose weighted average baseline income is exactly 0 reports
`pct_change = 0`. -/
theorem c8_decile_aggregator {n : ℕ} (b r : Fin n → ℚ) (dec : Fin n → ℕ)
    (w : Fin n → ℚ) (d : ℕ) (h1 : 1 ≤ d) (h2 : d ≤ 10) :
    ((∑ i, if dec i = d then w i else 0) = 0 →
      ∀ row ∈ calculate_distributional_impact_rows b r dec w, row.decile ≠ d) ∧
    (∀ row ∈ calculate_distributional_impact_rows b r dec w,
      row.decile = d → row.avg_baseline_income = 0 → row.pct_change = 0) := by
  constructor
  · intro h0 row hrow hd
    simp only [calculate_distributional_impact_rows, List.mem_filterMap] at hrow
    obtain ⟨a, _ha, hg⟩ := hrow
    by_cases hz : (∑ i, if dec i = a then w i else 0) = 0
    · rw [if_pos hz] at hg
      exact Option.noConfusion hg
    · rw [if_neg hz] at hg
      obtain rfl := Option.some.inj hg
      apply hz
      have had : a = d := hd
      rw [had]
      exact h0
  · intro row hrow hd hb
    simp only [calculate_distributional_impact_rows, List.mem_filterMap] at hrow
    obtain ⟨a, _ha, hg⟩ := hrow
    by_cases hz : (∑ i, if dec i = a then w i else 0) = 0
    · rw [if_pos hz] at hg
      exact Option.noConfusion hg
    · rw [if_neg hz] at hg
      obtain rfl := Option.some.inj hg
      have hb2 : (∑ i, if dec i = a then b i else 0) /
          (∑ i, if dec i = a then w i else 0) = 0 := hb
      exact if_neg (not_not_intro hb2)

/-- Claim C8 witness: two households in deciles 1 and 3; decile 2 has zero
total weight and is absent from the rows. -/
theorem c8_decile_aggregator_witness :
    ((∑ i, if (![1, 3] : Fin 2 → ℕ) i = 2 then (![1, 1] : Fin 2 → ℚ) i else 0) = 0 →
      ∀ row ∈ calculate_distributional_impact_rows ![100, 200] ![110, 190] ![1, 3] ![1, 1],
        row.decile ≠ 2) ∧
    (∀ row ∈ calculate_distributional_impact_rows ![100, 200] ![110, 190] ![1, 3] ![1, 1],
      row.decile = 2 → row.avg_baseline_income = 0 → row.pct_change = 0) :=
  c8_decile_aggregator ![100, 200] ![110, 190] ![1, 3] ![1, 1] 2 (by norm_num) (by norm_num)

/-- Claim C9: for every list of cap amounts, `get_scenario_matrix` returns
exactly the Cartesian product `{SpreadCost, AbsorbCost} × {MaintainPension,
TakeCash}` per cap amount, in the deterministic order cap-outer,
employer-middle, employee-inner described by the spec
(`scenarioMatrixSpec`). -/
theorem c9_scenario_matrix (caps : List ℚ) :
    get_scenario_matrix caps = scenarioMatrixSpec caps := by
  have main : ∀ (cs : List ℚ) (acc : List SalarySacrificeCapScenario),
      cs.foldl (fun scenarios cap =>
        [SPREAD_COST, ABSORB_COST].foldl (fun scenarios2 employer =>
          [MAINTAIN_PENSION, TAKE_CASH].foldl (fun scenarios3 employee =>
            scenarios3 ++
              [{ cap_amount := cap, employer_response := employer,
                 employee_response := employee }]) scenarios2) scenarios) acc =
      acc ++ scenarioMatrixSpec cs := by
    intro cs
    induction cs with
    | nil =>
      intro acc
      simp [scenarioMatrixSpec]
    | cons c rest ih =>
      intro acc
      rw [List.foldl_cons, ih]
      simp [scenarioMatrixSpec, List.append_assoc]
  simpa [get_scenario_matrix] using main caps []

/-- Claim C10 counterexample: two configurations that differ in
`employer_ni_rate` (0.15 versus the default 0.138) are different values but
produce the same derived name — the name does not key on
`employer_ni_rate` (nor on `targeted_haircut_rate`). -/
theorem c10_name_counterexample :
    ({ employer_ni_rate := 15 / 100 } : SalarySacrificeCapScenario) ≠
      ({} : SalarySacrificeCapScenario) ∧
    scenarioName { employer_ni_rate := 15 / 100 } =
      scenarioName ({} : SalarySacrificeCapScenario) := by
  constructor
  · intro h
    have h2 := congrArg SalarySacrificeCapScenario.employer_ni_rate h
    norm_num at h2
  · rfl

/-- Claim C10 amended: the derived name is a pure function of
`cap_amount`, `employer_response`, `employee_response` and
`pension_redirect_rate` only — two configurations agreeing on those four
fields (but possibly differing in `employer_ni_rate` or
`targeted_haircut_rate`) get the same name. -/
theorem c10_name_fields (sc1 sc2 : SalarySacrificeCapScenario)
    (h1 : sc1.cap_amount = sc2.cap_amount)
    (h2 : sc1.employer_response = sc2.employer_response)
    (h3 : sc1.employee_response = sc2.employee_response)
    (h4 : sc1.pension_redirect_rate = sc2.pension_redirect_rate) :
    scenarioName sc1 = scenarioName sc2 := by
  simp [scenarioName, h1, h2, h3, h4]

/-- Claim C10 witness: the field-dependence theorem at two configurations
differing only in `targeted_haircut_rate`. -/
theorem c10_name_fields_witness :
    scenarioName { targeted_haircut_rate := 0 } =
      scenarioName ({} : SalarySacrificeCapScenario) :=
  c10_name_fields _ _ rfl rfl rfl rfl

end SalarySacrifice
